import Mathlib

/-!
# The session layer of gocmpp (`client.go`)

A shallow embedding of `Client` from `vendor/github.com/bigwhite/gocmpp/client.go`:
`NewClient`, `Connect`, `Disconnect`, `SendReqPkt`, `SendReqPktWithSeqId`,
`SendRspPkt` and `RecvAndUnpackPkt`.

`client.go` drives a `*Conn` whose declaration and methods live in other files
of the package. The embedding therefore keeps, for each connection, the list
of calls the client made on it (in order), and takes the value each call
returns from an environment `Env`. The general theorems quantify over the
environment, so nothing is assumed about what the connection layer answers;
the theorems at concrete inputs use the sample environments defined below.

Go values that can be `nil` are `Option`s (`none` is `nil`); a run-time panic
is an explicit outcome.
-/

namespace Cmpp

/-! ## Data model -/

/-- The protocol version tag `Type`. `client.go` only compares it with the
constants `V20` and `V21`; every other value of the type is `other tag`. -/
inductive Typ where
  | V20
  | V21
  | other (tag : Nat)
  deriving DecidableEq

/-- Go `error` values that are not `nil`. `ErrNotCompleted` and
`ErrRespNotMatch` are the two package variables of `client.go`; every other
error value (dial errors, I/O errors, login status errors) is `other msg`. -/
inductive Error where
  | ErrNotCompleted
  | ErrRespNotMatch
  | other (msg : String)
  deriving DecidableEq

/-- The connection states passed to `SetState`. `client.go` names
`CONN_CONNECTED` and `CONN_AUTHOK`; `CONN_CLOSED` is the state of a closed
connection. -/
inductive State where
  | CONN_CLOSED
  | CONN_CONNECTED
  | CONN_AUTHOK
  deriving DecidableEq

/-- A value of interface `Packer` handed to a send. `CmppConnReqPkt` is the
login request built by `Connect`; any other packet is `other tag`. -/
inductive Packer where
  | CmppConnReqPkt (SrcAddr : String) (Secret : String) (Version : Typ)
  | other (tag : Nat)
  deriving DecidableEq

/-- The login response of the older variant: `Status` is a `uint8`. -/
structure Cmpp2ConnRspPkt where
  Status : Nat
  deriving DecidableEq

/-- The login response of the newer variant: `Status` is a `uint32`. -/
structure Cmpp3ConnRspPkt where
  Status : Nat
  deriving DecidableEq

/-- The dynamic value of the `interface{}` returned by `RecvAndUnpackPkt`:
the nil interface, a `*Cmpp2ConnRspPkt` (the pointer itself may be nil), a
`*Cmpp3ConnRspPkt` (likewise), or a value of any other type. -/
inductive Iface where
  | nil
  | Cmpp2ConnRspPkt (p : Option Cmpp2ConnRspPkt)
  | Cmpp3ConnRspPkt (p : Option Cmpp3ConnRspPkt)
  | other (tag : Nat)
  deriving DecidableEq

/-- One call made on a `*Conn`, with its arguments. `RecvSeqId id` is a
receive `<-c.SeqId` that delivered `id`. -/
inductive ConnCall where
  | SetState (s : State)
  | RecvSeqId (id : Nat)
  | SendPkt (packet : Packer) (seqId : Nat)
  | RecvAndUnpackPkt (timeout : Int)
  | Close
  deriving DecidableEq

/-- A `Conn` as `client.go` sees it: the transport and version it was built
from, how many identifiers have been received from its `SeqId` channel, and
the calls made on it so far (oldest first). -/
structure Conn where
  netConn : Nat
  Typ : Typ
  seqTaken : Nat
  log : List ConnCall
  deriving DecidableEq

/-- The `Client` struct: `conn` is a pointer (nil until `Connect` stores one),
`typ` the version tag. -/
structure Client where
  conn : Option Conn
  typ : Typ
  deriving DecidableEq

/-- What a Go call did: it returned a value, it panicked inside `client.go`
(a nil pointer dereference), or it invoked the named `*Conn` method on a nil
receiver, in which case the method's own body decides what happens. -/
inductive Outcome (α : Type) where
  | returned (a : α)
  | panicked
  | nilReceiver (method : String)
  deriving DecidableEq

/-- Everything `client.go` obtains from outside itself: the result of
`net.DialTimeout`, the values delivered by the `SeqId` channel (the k-th
receive on a connection yields `SeqId k`), the results of `Conn.SendPkt` and
`Conn.RecvAndUnpackPkt` (they may depend on the whole history of the
connection), and the package table `ConnRspStatusErrMap` (a Go map lookup:
`none` when the key is absent). -/
structure Env where
  DialTimeout : String → Int → Except Error Nat
  SeqId : Nat → Nat
  SendPkt : Conn → Packer → Nat → Option Error
  RecvAndUnpackPkt : Conn → Int → Iface × Option Error
  ConnRspStatusErrMap : Nat → Option Error

/-! ## The connection as a collaborator -/

/-- The constructor `NewConn(conn, typ)`: a connection on which nothing has been called. -/
def NewConn (conn : Nat) (typ : Typ) : Conn :=
  { netConn := conn, Typ := typ, seqTaken := 0, log := [] }

/-- Record a call on the connection. -/
def Conn.call (c : Conn) (e : ConnCall) : Conn :=
  { c with log := c.log ++ [e] }

/-- The call `c.SetState(s)`. -/
def Conn.SetState (c : Conn) (s : State) : Conn :=
  c.call (.SetState s)

/-- The call `c.Close()`. -/
def Conn.Close (c : Conn) : Conn :=
  c.call .Close

/-- The receive `<-c.SeqId`: the next value of the channel, a `uint32`. -/
def Conn.recvSeqId (env : Env) (c : Conn) : Nat × Conn :=
  let id := env.SeqId c.seqTaken % 2 ^ 32
  (id, { c with seqTaken := c.seqTaken + 1, log := c.log ++ [.RecvSeqId id] })

/-- The call `c.SendPkt(packet, seqId)`. -/
def Conn.SendPkt (env : Env) (c : Conn) (packet : Packer) (seqId : Nat) :
    Option Error × Conn :=
  (env.SendPkt c packet seqId, c.call (.SendPkt packet seqId))

/-- The call `c.RecvAndUnpackPkt(timeout)`. -/
def Conn.RecvAndUnpackPkt (env : Env) (c : Conn) (timeout : Int) :
    (Iface × Option Error) × Conn :=
  (env.RecvAndUnpackPkt c timeout, c.call (.RecvAndUnpackPkt timeout))

/-! ## `client.go` -/

/-- The constructor `NewClient(typ)`: a client that owns no connection. -/
def NewClient (typ : Typ) : Client :=
  { conn := none, typ := typ }

/-- Method `cli.SendReqPkt(packet)`: `cli.conn.SendPkt(packet, <-cli.conn.SeqId)`.
Reading the field `SeqId` of a nil `conn` panics. -/
def Client.SendReqPkt (env : Env) (cli : Client) (packet : Packer) :
    Outcome (Option Error) × Client :=
  match cli.conn with
  | none => (.panicked, cli)
  | some c =>
    let (seq_id, c) := c.recvSeqId env
    let (err, c) := c.SendPkt env packet seq_id
    (.returned err, { cli with conn := some c })

/-- Method `cli.SendReqPktWithSeqId(packet)`: receive an identifier, send with
it, return both. -/
def Client.SendReqPktWithSeqId (env : Env) (cli : Client) (packet : Packer) :
    Outcome (Nat × Option Error) × Client :=
  match cli.conn with
  | none => (.panicked, cli)
  | some c =>
    let (seq_id, c) := c.recvSeqId env
    let (err, c) := c.SendPkt env packet seq_id
    (.returned (seq_id, err), { cli with conn := some c })

/-- Method `cli.SendRspPkt(packet, seqId)`: `cli.conn.SendPkt(packet, seqId)`. -/
def Client.SendRspPkt (env : Env) (cli : Client) (packet : Packer) (seqId : Nat) :
    Outcome (Option Error) × Client :=
  match cli.conn with
  | none => (.nilReceiver "SendPkt", cli)
  | some c =>
    let (err, c) := c.SendPkt env packet seqId
    (.returned err, { cli with conn := some c })

/-- Method `cli.RecvAndUnpackPkt(timeout)`: `cli.conn.RecvAndUnpackPkt(timeout)`. -/
def Client.RecvAndUnpackPkt (env : Env) (cli : Client) (timeout : Int) :
    Outcome (Iface × Option Error) × Client :=
  match cli.conn with
  | none => (.nilReceiver "RecvAndUnpackPkt", cli)
  | some c =>
    let (r, c) := c.RecvAndUnpackPkt env timeout
    (.returned r, { cli with conn := some c })

/-- Method `cli.Disconnect()`: `cli.conn.Close()`. The function has no result. -/
def Client.Disconnect (cli : Client) : Outcome Unit × Client :=
  match cli.conn with
  | none => (.nilReceiver "Close", cli)
  | some c => (.returned (), { cli with conn := some c.Close })

/-- The type assertion `p.(*Cmpp2ConnRspPkt)` in its two-result form: the
pointer (nil when the assertion fails) and `ok`. -/
def assertCmpp2 : Iface → Option Cmpp2ConnRspPkt × Bool
  | .Cmpp2ConnRspPkt p => (p, true)
  | _ => (none, false)

/-- The type assertion `p.(*Cmpp3ConnRspPkt)` in its two-result form. -/
def assertCmpp3 : Iface → Option Cmpp3ConnRspPkt × Bool
  | .Cmpp3ConnRspPkt p => (p, true)
  | _ => (none, false)

/-- Lines 72-82 of `Connect`: `ok` and `status` from the received value.
`rsp.Status` is read before `ok` is tested, so a nil `rsp` panics (`none`).
For the newer variant the 32-bit status is converted with `uint8(...)`. -/
def connStatus (typ : Typ) (p : Iface) : Option (Bool × Nat) :=
  if typ = .V20 ∨ typ = .V21 then
    match assertCmpp2 p with
    | (none, _) => none
    | (some rsp, ok) => some (ok, rsp.Status)
  else
    match assertCmpp3 p with
    | (none, _) => none
    | (some rsp, ok) => some (ok, rsp.Status % 256)

/-- The body of `Connect` after `cli.conn = NewConn(conn, cli.typ)`, run on
that connection. The result is the outcome, the value of the variable `err`
when the body ends (what the deferred function tests), and the connection. -/
def connectBody (env : Env) (typ : Typ) (c : Conn) (user password : String) :
    Outcome (Option Error) × Option Error × Conn :=
  let c := c.SetState .CONN_CONNECTED
  let req := Packer.CmppConnReqPkt user password typ
  match Client.SendReqPkt env { conn := some c, typ := typ } req with
  | (.returned err, cli) =>
    match cli.conn with
    | none => (.panicked, err, c)
    | some c =>
      if err ≠ none then (.returned err, err, c)
      else
        let ((p, err), c) := c.RecvAndUnpackPkt env 0
        if err ≠ none then (.returned err, err, c)
        else
          match connStatus typ p with
          | none => (.panicked, err, c)
          | some (ok, status) =>
            if !ok then (.returned (some .ErrRespNotMatch), some .ErrRespNotMatch, c)
            else if status ≠ 0 then
              let err := env.ConnRspStatusErrMap status
              (.returned err, err, c)
            else
              (.returned none, err, c.SetState .CONN_AUTHOK)
  | (.panicked, _) => (.panicked, none, c)
  | (.nilReceiver m, _) => (.nilReceiver m, none, c)

/-- Method `cli.Connect(servAddr, user, password, timeout)`. A failed dial returns
its error and leaves the client as it was. Otherwise the new connection is
stored, the body runs, and the deferred function closes the connection when
`err` is not nil (also while a panic unwinds). -/
def Client.Connect (env : Env) (cli : Client) (servAddr user password : String)
    (timeout : Int) : Outcome (Option Error) × Client :=
  match env.DialTimeout servAddr timeout with
  | .error err => (.returned (some err), cli)
  | .ok conn =>
    let (out, err, c) := connectBody env cli.typ (NewConn conn cli.typ) user password
    (out, { cli with conn := some (if err ≠ none then c.Close else c) })

/-! ## Observations on a connection's call log -/

/-- The state a call sets, when the call is a `SetState`. -/
def ConnCall.setState? : ConnCall → Option State
  | .SetState s => some s
  | _ => none

/-- The packet and identifier a call sends, when the call is a `SendPkt`. -/
def ConnCall.sent? : ConnCall → Option (Packer × Nat)
  | .SendPkt p id => some (p, id)
  | _ => none

/-- The identifier a call received, when the call is a channel receive. -/
def ConnCall.seqId? : ConnCall → Option Nat
  | .RecvSeqId id => some id
  | _ => none

/-- The states passed to `SetState`, in call order. -/
def setStates (log : List ConnCall) : List State :=
  log.filterMap ConnCall.setState?

/-- The packets handed to `SendPkt` with their sequence ids, in call order. -/
def sentPkts (log : List ConnCall) : List (Packer × Nat) :=
  log.filterMap ConnCall.sent?

/-- The identifiers received from the `SeqId` channel, in order. -/
def takenSeqIds (log : List ConnCall) : List Nat :=
  log.filterMap ConnCall.seqId?

/-- How many times `Close` was called. -/
def closeCount (log : List ConnCall) : Nat :=
  log.count .Close

/-- The call log of the client's connection (empty when it owns none). -/
def Client.log (cli : Client) : List ConnCall :=
  match cli.conn with
  | none => []
  | some c => c.log

/-- The identifier part of the outcome of `SendReqPktWithSeqId`. -/
def usedSeqId : Outcome (Nat × Option Error) → Option Nat
  | .returned (id, _) => some id
  | _ => none

/-! ## The stages of a handshake -/

/-- The identifier `Connect` receives for the login request: the first value
of the new connection's channel. -/
def loginSeqId (env : Env) : Nat :=
  env.SeqId 0 % 2 ^ 32

/-- The connection at the moment `Connect` calls `SendPkt`. -/
def connAtSend (env : Env) (conn : Nat) (typ : Typ) : Conn :=
  { netConn := conn, Typ := typ, seqTaken := 1,
    log := [.SetState .CONN_CONNECTED, .RecvSeqId (loginSeqId env)] }

/-- The connection at the moment `Connect` calls `RecvAndUnpackPkt`. -/
def connAtRecv (env : Env) (conn : Nat) (typ : Typ) (user password : String) : Conn :=
  { netConn := conn, Typ := typ, seqTaken := 1,
    log := [.SetState .CONN_CONNECTED, .RecvSeqId (loginSeqId env),
            .SendPkt (.CmppConnReqPkt user password typ) (loginSeqId env)] }

/-- The connection once that receive has been made. -/
def connAfterRecv (env : Env) (conn : Nat) (typ : Typ) (user password : String) : Conn :=
  (connAtRecv env conn typ user password).call (.RecvAndUnpackPkt 0)

/-- The client with `conn` pointing at `c`. -/
def Client.withConn (cli : Client) (c : Conn) : Client :=
  { cli with conn := some c }

/-- The dial delivered transport `conn`. -/
def Dialed (env : Env) (servAddr : String) (timeout : Int) (conn : Nat) : Prop :=
  env.DialTimeout servAddr timeout = .ok conn

/-- The result of sending the login request on the new connection. -/
def loginSendResult (env : Env) (conn : Nat) (typ : Typ) (user password : String) :
    Option Error :=
  env.SendPkt (connAtSend env conn typ) (.CmppConnReqPkt user password typ) (loginSeqId env)

/-- The result of the receive that follows the login request. -/
def loginRecvResult (env : Env) (conn : Nat) (typ : Typ) (user password : String) :
    Iface × Option Error :=
  env.RecvAndUnpackPkt (connAtRecv env conn typ user password) 0

/-- The dial delivered `conn`, the login request was sent without error and
the receive returned the value `p` without error. -/
def Replied (env : Env) (typ : Typ) (servAddr user password : String) (timeout : Int)
    (conn : Nat) (p : Iface) : Prop :=
  Dialed env servAddr timeout conn ∧
  loginSendResult env conn typ user password = none ∧
  loginRecvResult env conn typ user password = (p, none)

/-- The identifier the next receive from the channel of `c` delivers. -/
def nextSeqId (env : Env) (c : Conn) : Nat :=
  env.SeqId c.seqTaken % 2 ^ 32

/-- The call of `Connect` returned the error `e`, `Close` was called exactly once, as the
last call on the connection, and `CONN_AUTHOK` was never set. -/
def FailedAndClosed (r : Outcome (Option Error) × Client) (e : Error) : Prop :=
  r.1 = .returned (some e) ∧ closeCount r.2.log = 1 ∧ r.2.log.getLast? = some .Close ∧
    State.CONN_AUTHOK ∉ setStates r.2.log

/-- The login response `Connect` expects for version `typ`, carrying
`status`: the older variant for `V20` and `V21`, the newer one otherwise. -/
def loginRsp (typ : Typ) (status : Nat) : Iface :=
  if typ = .V20 ∨ typ = .V21 then .Cmpp2ConnRspPkt (some ⟨status⟩)
  else .Cmpp3ConnRspPkt (some ⟨status⟩)

/-! ## Sample environments -/

/-- A status table with entries for the statuses 1 to 5 and no other. -/
def sampleErrMap (status : Nat) : Option Error :=
  if status = 1 then some (.other "invalid source address")
  else if status = 2 then some (.other "invalid structure")
  else if status = 3 then some (.other "authentication failed")
  else if status = 4 then some (.other "version too high")
  else if status = 5 then some (.other "other error")
  else none

/-- An environment whose dial succeeds with transport 1, whose channel
delivers 1, 2, 3, ..., whose sends all return `sendErr` and whose receives all
return `reply`. -/
def sampleEnv (sendErr : Option Error) (reply : Iface × Option Error) : Env :=
  { DialTimeout := fun _ _ => .ok 1
    SeqId := fun k => k + 1
    SendPkt := fun _ _ _ => sendErr
    RecvAndUnpackPkt := fun _ _ => reply
    ConnRspStatusErrMap := sampleErrMap }

/-- An environment whose dial fails. -/
def downEnv : Env :=
  { DialTimeout := fun _ _ => .error (.other "connection refused")
    SeqId := fun k => k + 1
    SendPkt := fun _ _ _ => none
    RecvAndUnpackPkt := fun _ _ => (.nil, none)
    ConnRspStatusErrMap := sampleErrMap }

/-- The version tag of the newer protocol variant (0x30), one of the values
that is neither `V20` nor `V21`. -/
def V30 : Typ :=
  .other 48

/-- A session whose `Connect` failed: the dial succeeded and the send of the
login request returned an error. -/
def failedSession : Client :=
  (Client.Connect (sampleEnv (some (.other "broken pipe")) (.nil, none)) (NewClient .V20)
    "127.0.0.1:7890" "900001" "secret" 2).2

/-! ## Auxiliary lemmas -/

/-- On the expected login response the type assertion succeeds and the status
read is the packet's, reduced modulo 256 for the newer variant. -/
theorem connStatus_loginRsp (typ : Typ) (s : Nat) :
    connStatus typ (loginRsp typ s) =
      some (true, if typ = .V20 ∨ typ = .V21 then s else s % 256) := by
  unfold connStatus loginRsp
  by_cases h : typ = .V20 ∨ typ = .V21 <;> simp [h, assertCmpp2, assertCmpp3]

/-- Under `Replied`, what `Connect` does is decided by `connStatus` alone. -/
theorem connect_of_replied (env : Env) (cli : Client) (servAddr user password : String)
    (timeout : Int) (conn : Nat) (p : Iface)
    (h : Replied env cli.typ servAddr user password timeout conn p) :
    Client.Connect env cli servAddr user password timeout =
      match connStatus cli.typ p with
      | none => (.panicked, cli.withConn (connAfterRecv env conn cli.typ user password))
      | some (ok, status) =>
        if ok = false then
          (.returned (some .ErrRespNotMatch),
            cli.withConn (connAfterRecv env conn cli.typ user password).Close)
        else if status ≠ 0 then
          (.returned (env.ConnRspStatusErrMap status),
            cli.withConn
              (if env.ConnRspStatusErrMap status ≠ none then
                (connAfterRecv env conn cli.typ user password).Close
               else connAfterRecv env conn cli.typ user password))
        else
          (.returned none,
            cli.withConn
              ((connAfterRecv env conn cli.typ user password).SetState .CONN_AUTHOK)) := by
  obtain ⟨hd, hs, hr⟩ := h
  unfold Dialed at hd
  unfold loginSendResult connAtSend loginSeqId at hs
  unfold loginRecvResult connAtRecv loginSeqId at hr
  simp only [Client.Connect, hd, connectBody, Client.SendReqPkt, Conn.recvSeqId, Conn.SendPkt,
    Conn.SetState, Conn.call, NewConn, Conn.RecvAndUnpackPkt, List.nil_append,
    List.cons_append, List.singleton_append, hs, hr, connAtRecv, connAfterRecv, loginSeqId,
    Conn.Close, Client.withConn]
  cases hc : connStatus cli.typ p with
  | none => simp
  | some r =>
    obtain ⟨ok, status⟩ := r
    cases ok <;> by_cases h0 : status = 0 <;> simp [h0]

/-- When the send of the login request fails, `Connect` returns that error
and the deferred function closes the connection. -/
theorem connect_of_send_failed (env : Env) (cli : Client) (servAddr user password : String)
    (timeout : Int) (conn : Nat) (e : Error)
    (hd : Dialed env servAddr timeout conn)
    (hs : loginSendResult env conn cli.typ user password = some e) :
    Client.Connect env cli servAddr user password timeout =
      (.returned (some e), cli.withConn (connAtRecv env conn cli.typ user password).Close) := by
  unfold Dialed at hd
  unfold loginSendResult connAtSend loginSeqId at hs
  simp only [Client.Connect, hd, connectBody, Client.SendReqPkt, Conn.recvSeqId, Conn.SendPkt,
    Conn.SetState, Conn.call, NewConn, List.nil_append, List.cons_append,
    List.singleton_append, hs, connAtRecv, loginSeqId, Conn.Close, Client.withConn]
  simp

/-- When the receive after the login request fails, `Connect` returns that
error and the deferred function closes the connection. -/
theorem connect_of_recv_failed (env : Env) (cli : Client) (servAddr user password : String)
    (timeout : Int) (conn : Nat) (p : Iface) (e : Error)
    (hd : Dialed env servAddr timeout conn)
    (hs : loginSendResult env conn cli.typ user password = none)
    (hr : loginRecvResult env conn cli.typ user password = (p, some e)) :
    Client.Connect env cli servAddr user password timeout =
      (.returned (some e), cli.withConn (connAfterRecv env conn cli.typ user password).Close) := by
  unfold Dialed at hd
  unfold loginSendResult connAtSend loginSeqId at hs
  unfold loginRecvResult connAtRecv loginSeqId at hr
  simp only [Client.Connect, hd, connectBody, Client.SendReqPkt, Conn.recvSeqId, Conn.SendPkt,
    Conn.SetState, Conn.call, NewConn, Conn.RecvAndUnpackPkt, List.nil_append,
    List.cons_append, List.singleton_append, hs, hr, connAtRecv, connAfterRecv, loginSeqId,
    Conn.Close, Client.withConn]
  simp

/-- After a successful dial `Connect` ends in one of five ways: the send
failed, the receive failed or the reply was rejected with an error (closed in
each case), it panicked, it returned nil without setting `CONN_AUTHOK`, or it
returned nil after setting `CONN_AUTHOK`. -/
theorem connect_dialed_cases (env : Env) (cli : Client) (servAddr user password : String)
    (timeout : Int) (conn : Nat) (hd : Dialed env servAddr timeout conn) :
    (∃ e, Client.Connect env cli servAddr user password timeout =
      (.returned (some e), cli.withConn (connAtRecv env conn cli.typ user password).Close)) ∨
    (∃ e, Client.Connect env cli servAddr user password timeout =
      (.returned (some e), cli.withConn (connAfterRecv env conn cli.typ user password).Close)) ∨
    Client.Connect env cli servAddr user password timeout =
      (.panicked, cli.withConn (connAfterRecv env conn cli.typ user password)) ∨
    Client.Connect env cli servAddr user password timeout =
      (.returned none, cli.withConn (connAfterRecv env conn cli.typ user password)) ∨
    Client.Connect env cli servAddr user password timeout =
      (.returned none,
        cli.withConn ((connAfterRecv env conn cli.typ user password).SetState .CONN_AUTHOK)) := by
  cases hs : loginSendResult env conn cli.typ user password with
  | some e =>
    exact Or.inl ⟨e, connect_of_send_failed env cli servAddr user password timeout conn e hd hs⟩
  | none =>
    rcases hr : loginRecvResult env conn cli.typ user password with ⟨p, r⟩
    cases r with
    | some e =>
      exact Or.inr (Or.inl
        ⟨e, connect_of_recv_failed env cli servAddr user password timeout conn p e hd hs hr⟩)
    | none =>
      rw [connect_of_replied env cli servAddr user password timeout conn p ⟨hd, hs, hr⟩]
      cases connStatus cli.typ p with
      | none => simp
      | some r =>
        obtain ⟨ok, status⟩ := r
        cases ok
        · exact Or.inr (Or.inl ⟨.ErrRespNotMatch, by simp⟩)
        · by_cases h0 : status = 0
          · simp [h0]
          · cases hm : env.ConnRspStatusErrMap status with
            | none => simp [h0, hm]
            | some e => exact Or.inr (Or.inl ⟨e, by simp [h0, hm]⟩)

/-! ## The claims -/

/-- C1. Handshake success: when the dial succeeds, the login request is sent
without error and the reply is the login response of the session's version
with status zero, `Connect` returns nil, the states set on the connection are
`CONN_CONNECTED` then `CONN_AUTHOK`, and `Close` is never called. The calls
made on the connection are exactly: set state, take an identifier, send the
login request, receive, set state. -/
theorem connect_handshake_success (env : Env) (cli : Client)
    (servAddr user password : String) (timeout : Int) (conn : Nat)
    (h : Replied env cli.typ servAddr user password timeout conn (loginRsp cli.typ 0)) :
    (Client.Connect env cli servAddr user password timeout).1 = .returned none ∧
    setStates (Client.Connect env cli servAddr user password timeout).2.log
      = [.CONN_CONNECTED, .CONN_AUTHOK] ∧
    closeCount (Client.Connect env cli servAddr user password timeout).2.log = 0 ∧
    (Client.Connect env cli servAddr user password timeout).2.log
      = [.SetState .CONN_CONNECTED, .RecvSeqId (loginSeqId env),
         .SendPkt (.CmppConnReqPkt user password cli.typ) (loginSeqId env),
         .RecvAndUnpackPkt 0, .SetState .CONN_AUTHOK] := by
  rw [connect_of_replied env cli servAddr user password timeout conn _ h,
    connStatus_loginRsp]
  simp [Client.withConn, Client.log, connAfterRecv, connAtRecv, Conn.call, Conn.SetState,
    setStates, closeCount, ConnCall.setState?]

/-- C1 at a concrete input: a `V20` session whose peer answers with the older
login response carrying status 0. -/
theorem connect_handshake_success_witness :
    (Client.Connect (sampleEnv none (.Cmpp2ConnRspPkt (some ⟨0⟩), none)) (NewClient .V20)
        "127.0.0.1:7890" "900001" "secret" 2).1 = .returned none ∧
    setStates (Client.Connect (sampleEnv none (.Cmpp2ConnRspPkt (some ⟨0⟩), none))
        (NewClient .V20) "127.0.0.1:7890" "900001" "secret" 2).2.log
      = [.CONN_CONNECTED, .CONN_AUTHOK] :=
  have h := connect_handshake_success (sampleEnv none (.Cmpp2ConnRspPkt (some ⟨0⟩), none))
    (NewClient .V20) "127.0.0.1:7890" "900001" "secret" 2 1 ⟨rfl, rfl, rfl⟩
  ⟨h.1, h.2.1⟩

/-- C2. At a failing input: a `V20` session receives, in reply to its login
request, the login response of the newer variant (and likewise a `V30` session
the older variant, or either session some other packet). `Connect` panics on
`rsp.Status` before it tests `ok`: it does not return `ErrRespNotMatch`, and
the deferred function, which sees a nil `err`, does not close the connection. -/
theorem connect_type_mismatch_panics :
    (Client.Connect (sampleEnv none (.Cmpp3ConnRspPkt (some ⟨0⟩), none)) (NewClient .V20)
        "127.0.0.1:7890" "900001" "secret" 2).1 = .panicked ∧
    closeCount (Client.Connect (sampleEnv none (.Cmpp3ConnRspPkt (some ⟨0⟩), none))
        (NewClient .V20) "127.0.0.1:7890" "900001" "secret" 2).2.log = 0 ∧
    (Client.Connect (sampleEnv none (.Cmpp2ConnRspPkt (some ⟨0⟩), none)) (NewClient V30)
        "127.0.0.1:7890" "900001" "secret" 2).1 = .panicked ∧
    (Client.Connect (sampleEnv none (.other 8, none)) (NewClient .V20)
        "127.0.0.1:7890" "900001" "secret" 2).1 = .panicked ∧
    (Client.Connect (sampleEnv none (.other 8, none)) (NewClient V30)
        "127.0.0.1:7890" "900001" "secret" 2).1 = .panicked := by
  refine ⟨rfl, ?_, rfl, rfl, rfl⟩
  decide

/-- C3. Handshake status rejection: when the reply is the login response of
the session's version with a non-zero single-byte status that the table maps
to the error `e`, `Connect` returns exactly `e`, calls `Close` once, as its
last call on the connection, and never sets `CONN_AUTHOK`. -/
theorem connect_status_rejected (env : Env) (cli : Client)
    (servAddr user password : String) (timeout : Int) (conn : Nat) (s : Nat) (e : Error)
    (hs0 : s ≠ 0) (hs : s < 256) (hmap : env.ConnRspStatusErrMap s = some e)
    (h : Replied env cli.typ servAddr user password timeout conn (loginRsp cli.typ s)) :
    (Client.Connect env cli servAddr user password timeout).1 = .returned (some e) ∧
    closeCount (Client.Connect env cli servAddr user password timeout).2.log = 1 ∧
    (Client.Connect env cli servAddr user password timeout).2.log.getLast? = some .Close ∧
    State.CONN_AUTHOK ∉ setStates (Client.Connect env cli servAddr user password timeout).2.log := by
  have hmod : s % 256 = s := Nat.mod_eq_of_lt hs
  rw [connect_of_replied env cli servAddr user password timeout conn _ h,
    connStatus_loginRsp]
  simp [hmod, hs0, hmap, Client.withConn, Client.log, connAfterRecv, connAtRecv, Conn.call,
    Conn.Close, setStates, closeCount, ConnCall.setState?]

/-- C3 at a concrete input: status 1 for a `V20` session. -/
theorem connect_status_rejected_witness :
    (Client.Connect (sampleEnv none (.Cmpp2ConnRspPkt (some ⟨1⟩), none)) (NewClient .V20)
        "127.0.0.1:7890" "900001" "secret" 2).1
      = .returned (some (.other "invalid source address")) ∧
    closeCount (Client.Connect (sampleEnv none (.Cmpp2ConnRspPkt (some ⟨1⟩), none))
        (NewClient .V20) "127.0.0.1:7890" "900001" "secret" 2).2.log = 1 :=
  have h := connect_status_rejected (sampleEnv none (.Cmpp2ConnRspPkt (some ⟨1⟩), none))
    (NewClient .V20) "127.0.0.1:7890" "900001" "secret" 2 1 1 (.other "invalid source address")
    (by decide) (by decide) rfl ⟨rfl, rfl, rfl⟩
  ⟨h.1, h.2.1⟩

/-- C4. At a failing input: a `V20` session receives the matching login
response with status 6, for which the table has no entry. The lookup yields
nil, so `Connect` returns nil (success), does not close the connection, and
leaves the state at `CONN_CONNECTED`. -/
theorem connect_unmapped_status_returns_nil :
    sampleErrMap 6 = none ∧
    (Client.Connect (sampleEnv none (.Cmpp2ConnRspPkt (some ⟨6⟩), none)) (NewClient .V20)
        "127.0.0.1:7890" "900001" "secret" 2).1 = .returned none ∧
    closeCount (Client.Connect (sampleEnv none (.Cmpp2ConnRspPkt (some ⟨6⟩), none))
        (NewClient .V20) "127.0.0.1:7890" "900001" "secret" 2).2.log = 0 ∧
    setStates (Client.Connect (sampleEnv none (.Cmpp2ConnRspPkt (some ⟨6⟩), none))
        (NewClient .V20) "127.0.0.1:7890" "900001" "secret" 2).2.log = [.CONN_CONNECTED] := by
  refine ⟨rfl, rfl, ?_, ?_⟩ <;> decide

/-- C5. At a failing input: a `V30` session receives the newer login response
with the 32-bit status 256. `uint8(256)` is 0, so `Connect` sets `CONN_AUTHOK`
and returns nil although the status is not zero. -/
theorem connect_wide_status_truncated :
    (Client.Connect (sampleEnv none (.Cmpp3ConnRspPkt (some ⟨256⟩), none)) (NewClient V30)
        "127.0.0.1:7890" "900001" "secret" 2).1 = .returned none ∧
    setStates (Client.Connect (sampleEnv none (.Cmpp3ConnRspPkt (some ⟨256⟩), none))
        (NewClient V30) "127.0.0.1:7890" "900001" "secret" 2).2.log
      = [.CONN_CONNECTED, .CONN_AUTHOK] := by
  refine ⟨rfl, ?_⟩
  decide

/-- C6. Cleanup on failure after open: after a successful dial, when the
send of the login request fails with `e`, or the send succeeds and the receive
fails with `e`, `Connect` returns `e`, calls `Close` exactly once, as the last
call on the connection, and never sets `CONN_AUTHOK`; and whenever `Connect`
returns a non-nil error, `Close` has been called exactly once, last. -/
theorem connect_cleanup_on_failure (env : Env) (cli : Client)
    (servAddr user password : String) (timeout : Int) (conn : Nat)
    (hd : Dialed env servAddr timeout conn) :
    (∀ e, loginSendResult env conn cli.typ user password = some e →
      FailedAndClosed (Client.Connect env cli servAddr user password timeout) e) ∧
    (∀ p e, loginSendResult env conn cli.typ user password = none →
      loginRecvResult env conn cli.typ user password = (p, some e) →
      FailedAndClosed (Client.Connect env cli servAddr user password timeout) e) ∧
    (∀ e, (Client.Connect env cli servAddr user password timeout).1 = .returned (some e) →
      FailedAndClosed (Client.Connect env cli servAddr user password timeout) e) := by
  refine ⟨?_, ?_, ?_⟩
  · intro e hs
    rw [connect_of_send_failed env cli servAddr user password timeout conn e hd hs]
    simp [FailedAndClosed, Client.withConn, Client.log, connAtRecv, Conn.call, Conn.Close,
      setStates, closeCount, ConnCall.setState?]
  · intro p e hs hr
    rw [connect_of_recv_failed env cli servAddr user password timeout conn p e hd hs hr]
    simp [FailedAndClosed, Client.withConn, Client.log, connAfterRecv, connAtRecv, Conn.call,
      Conn.Close, setStates, closeCount, ConnCall.setState?]
  · intro e
    rcases connect_dialed_cases env cli servAddr user password timeout conn hd with
      ⟨e1, h⟩ | ⟨e1, h⟩ | h | h | h <;> rw [h] <;>
    simp [FailedAndClosed, Client.withConn, Client.log, connAfterRecv, connAtRecv, Conn.call,
      Conn.Close, Conn.SetState, setStates, closeCount, ConnCall.setState?]

/-- C6 at concrete inputs: a send that fails with "broken pipe", and a receive
that fails with `ErrNotCompleted`. -/
theorem connect_cleanup_on_failure_witness :
    FailedAndClosed (Client.Connect (sampleEnv (some (.other "broken pipe")) (.nil, none))
      (NewClient .V20) "127.0.0.1:7890" "900001" "secret" 2) (.other "broken pipe") ∧
    FailedAndClosed (Client.Connect (sampleEnv none (.nil, some .ErrNotCompleted))
      (NewClient V30) "127.0.0.1:7890" "900001" "secret" 2) .ErrNotCompleted :=
  ⟨(connect_cleanup_on_failure (sampleEnv (some (.other "broken pipe")) (.nil, none))
      (NewClient .V20) "127.0.0.1:7890" "900001" "secret" 2 1 rfl).1 _ rfl,
   (connect_cleanup_on_failure (sampleEnv none (.nil, some .ErrNotCompleted))
      (NewClient V30) "127.0.0.1:7890" "900001" "secret" 2 1 rfl).2.1 .nil _ rfl rfl⟩

/-- C7, as stated, fails: on a session whose `Connect` failed (the send of
the login request returned an error, so `Connect` never succeeded),
`Disconnect` returns normally, without any error, and calls `Close` on the
owned connection once more. -/
theorem disconnect_after_failed_connect_closes :
    (Client.Connect (sampleEnv (some (.other "broken pipe")) (.nil, none)) (NewClient .V20)
        "127.0.0.1:7890" "900001" "secret" 2).1 = .returned (some (.other "broken pipe")) ∧
    (Client.Disconnect failedSession).1 = .returned () ∧
    closeCount failedSession.log = 1 ∧
    closeCount (Client.Disconnect failedSession).2.log = 2 := by
  refine ⟨rfl, rfl, ?_, ?_⟩ <;> decide

/-- C7, amended. `Disconnect` has no result and signals no error. On a session
that owns a connection it calls `Close` on it, once, and returns, whatever
happened to that connection before; on a freshly constructed session, which
owns none, all it does is invoke `Close` on the nil connection, and the
session is left as it was. -/
theorem disconnect_calls_close (typ : Typ) (c : Conn) :
    Client.Disconnect { conn := some c, typ := typ } =
      (.returned (), { conn := some { c with log := c.log ++ [.Close] }, typ := typ }) ∧
    closeCount (Client.Disconnect { conn := some c, typ := typ }).2.log
      = closeCount c.log + 1 ∧
    Client.Disconnect (NewClient typ) = (.nilReceiver "Close", NewClient typ) := by
  refine ⟨rfl, ?_, rfl⟩
  simp [Client.Disconnect, Conn.Close, Conn.call, Client.log, closeCount]

/-- C8. On a session that owns the connection `c`, `SendReqPktWithSeqId`
receives exactly one identifier from the channel (the next one), calls
`SendPkt` once with the packet and that identifier, and returns the identifier
together with the result of that `SendPkt`, whatever it is; `SendReqPkt` makes
the same two calls and returns the same send result. -/
theorem sendReqPkt_fresh_seqId (env : Env) (c : Conn) (typ : Typ) (packet : Packer) :
    Client.SendReqPktWithSeqId env { conn := some c, typ := typ } packet =
      (.returned (nextSeqId env c,
          env.SendPkt { c with seqTaken := c.seqTaken + 1,
                               log := c.log ++ [.RecvSeqId (nextSeqId env c)] }
            packet (nextSeqId env c)),
        { conn := some { c with seqTaken := c.seqTaken + 1,
                                log := c.log ++ [.RecvSeqId (nextSeqId env c),
                                                 .SendPkt packet (nextSeqId env c)] },
          typ := typ }) ∧
    Client.SendReqPkt env { conn := some c, typ := typ } packet =
      (.returned
          (env.SendPkt { c with seqTaken := c.seqTaken + 1,
                                log := c.log ++ [.RecvSeqId (nextSeqId env c)] }
            packet (nextSeqId env c)),
        { conn := some { c with seqTaken := c.seqTaken + 1,
                                log := c.log ++ [.RecvSeqId (nextSeqId env c),
                                                 .SendPkt packet (nextSeqId env c)] },
          typ := typ }) := by
  simp [Client.SendReqPktWithSeqId, Client.SendReqPkt, Conn.recvSeqId, Conn.SendPkt, Conn.call,
    nextSeqId]

/-- C9. On a session that owns the connection `c`, `SendRspPkt` calls
`SendPkt` once with the packet and exactly the caller's sequence id and
returns its result; it receives nothing from the `SeqId` channel, so the
number and list of identifiers taken are unchanged and a following
`SendReqPktWithSeqId` uses the identifier it would have used on `c` itself. -/
theorem sendRspPkt_keeps_allocator (env : Env) (c : Conn) (typ : Typ) (packet q : Packer)
    (seqId : Nat) :
    Client.SendRspPkt env { conn := some c, typ := typ } packet seqId =
      (.returned (env.SendPkt c packet seqId),
        { conn := some { c with log := c.log ++ [.SendPkt packet seqId] }, typ := typ }) ∧
    takenSeqIds (Client.SendRspPkt env { conn := some c, typ := typ } packet seqId).2.log
      = takenSeqIds c.log ∧
    usedSeqId (Client.SendReqPktWithSeqId env
        (Client.SendRspPkt env { conn := some c, typ := typ } packet seqId).2 q).1
      = usedSeqId (Client.SendReqPktWithSeqId env { conn := some c, typ := typ } q).1 ∧
    usedSeqId (Client.SendReqPktWithSeqId env { conn := some c, typ := typ } q).1
      = some (nextSeqId env c) := by
  simp [Client.SendRspPkt, Client.SendReqPktWithSeqId, Conn.recvSeqId, Conn.SendPkt, Conn.call,
    Client.log, takenSeqIds, usedSeqId, nextSeqId, ConnCall.seqId?, List.filterMap_append]

/-- C10. After a successful dial the calls `Connect` makes on the new
connection start with: set `CONN_CONNECTED`, receive one identifier from the
channel, send the login request built from `user`, `password` and the
session's version with that identifier. Whatever follows contains no further
send and no further channel receive (so the only receive of a packet comes
after the one send). And no operation of the session changes its version. -/
theorem connect_sends_login_request (env : Env) (cli : Client)
    (servAddr user password : String) (timeout : Int) :
    (∀ conn, Dialed env servAddr timeout conn →
      ∃ rest, (Client.Connect env cli servAddr user password timeout).2.log =
          [.SetState .CONN_CONNECTED, .RecvSeqId (loginSeqId env),
           .SendPkt (.CmppConnReqPkt user password cli.typ) (loginSeqId env)] ++ rest ∧
        sentPkts rest = [] ∧ takenSeqIds rest = [] ∧
        sentPkts (Client.Connect env cli servAddr user password timeout).2.log =
          [(.CmppConnReqPkt user password cli.typ, loginSeqId env)]) ∧
    (Client.Connect env cli servAddr user password timeout).2.typ = cli.typ ∧
    (Client.Disconnect cli).2.typ = cli.typ ∧
    (∀ packet, (Client.SendReqPkt env cli packet).2.typ = cli.typ) ∧
    (∀ packet, (Client.SendReqPktWithSeqId env cli packet).2.typ = cli.typ) ∧
    (∀ packet seqId, (Client.SendRspPkt env cli packet seqId).2.typ = cli.typ) ∧
    (∀ t, (Client.RecvAndUnpackPkt env cli t).2.typ = cli.typ) := by
  refine ⟨?_, ?_, ?_, ?_, ?_, ?_, ?_⟩
  · intro conn hd
    rcases connect_dialed_cases env cli servAddr user password timeout conn hd with
      ⟨e1, h⟩ | ⟨e1, h⟩ | h | h | h <;> rw [h]
    · exact ⟨[.Close], by
        simp [Client.withConn, Client.log, connAtRecv, Conn.call, Conn.Close, sentPkts,
          takenSeqIds, ConnCall.sent?, ConnCall.seqId?]⟩
    · exact ⟨[.RecvAndUnpackPkt 0, .Close], by
        simp [Client.withConn, Client.log, connAfterRecv, connAtRecv, Conn.call, Conn.Close,
          sentPkts, takenSeqIds, ConnCall.sent?, ConnCall.seqId?]⟩
    · exact ⟨[.RecvAndUnpackPkt 0], by
        simp [Client.withConn, Client.log, connAfterRecv, connAtRecv, Conn.call,
          sentPkts, takenSeqIds, ConnCall.sent?, ConnCall.seqId?]⟩
    · exact ⟨[.RecvAndUnpackPkt 0], by
        simp [Client.withConn, Client.log, connAfterRecv, connAtRecv, Conn.call,
          sentPkts, takenSeqIds, ConnCall.sent?, ConnCall.seqId?]⟩
    · exact ⟨[.RecvAndUnpackPkt 0, .SetState .CONN_AUTHOK], by
        simp [Client.withConn, Client.log, connAfterRecv, connAtRecv, Conn.call, Conn.SetState,
          sentPkts, takenSeqIds, ConnCall.sent?, ConnCall.seqId?]⟩
  · unfold Client.Connect
    cases env.DialTimeout servAddr timeout <;> rfl
  · unfold Client.Disconnect
    cases cli.conn <;> rfl
  · intro packet
    unfold Client.SendReqPkt
    cases cli.conn <;> rfl
  · intro packet
    unfold Client.SendReqPktWithSeqId
    cases cli.conn <;> rfl
  · intro packet seqId
    unfold Client.SendRspPkt
    cases cli.conn <;> rfl
  · intro t
    unfold Client.RecvAndUnpackPkt
    cases cli.conn <;> rfl

/-- C10 at a concrete input: the first three calls of a `V21` session whose
peer accepts the login. -/
theorem connect_sends_login_request_witness :
    ∃ rest, (Client.Connect (sampleEnv none (.Cmpp2ConnRspPkt (some ⟨0⟩), none))
        (NewClient .V21) "127.0.0.1:7890" "900001" "secret" 2).2.log =
      [.SetState .CONN_CONNECTED, .RecvSeqId 1,
       .SendPkt (.CmppConnReqPkt "900001" "secret" .V21) 1] ++ rest ∧
      sentPkts rest = [] ∧ takenSeqIds rest = [] ∧
      sentPkts (Client.Connect (sampleEnv none (.Cmpp2ConnRspPkt (some ⟨0⟩), none))
        (NewClient .V21) "127.0.0.1:7890" "900001" "secret" 2).2.log =
          [(.CmppConnReqPkt "900001" "secret" .V21, 1)] :=
  (connect_sends_login_request (sampleEnv none (.Cmpp2ConnRspPkt (some ⟨0⟩), none))
    (NewClient .V21) "127.0.0.1:7890" "900001" "secret" 2).1 1 rfl

/-! ## Further properties of `Connect` -/

/-- A failed dial: `Connect` returns the dial error and leaves the session as
it was (no connection is created, nothing is called). -/
theorem connect_dial_failed (env : Env) (cli : Client) (servAddr user password : String)
    (timeout : Int) (e : Error) (hd : env.DialTimeout servAddr timeout = .error e) :
    Client.Connect env cli servAddr user password timeout = (.returned (some e), cli) := by
  simp [Client.Connect, hd]

/-- A failed dial at a concrete input. -/
theorem connect_dial_failed_witness :
    Client.Connect downEnv (NewClient .V20) "127.0.0.1:7890" "900001" "secret" 2 =
      (.returned (some (.other "connection refused")), NewClient .V20) :=
  connect_dial_failed downEnv (NewClient .V20) "127.0.0.1:7890" "900001" "secret" 2 _ rfl

/-- Type mismatch: when the reply is not a (non-nil) login response of the
variant expected for the session's version, `Connect` panics; the connection
is left as it was after the receive, so it is not closed and `CONN_AUTHOK` is
not set. -/
theorem connect_mismatch_panics (env : Env) (cli : Client) (servAddr user password : String)
    (timeout : Int) (conn : Nat) (p : Iface)
    (h : Replied env cli.typ servAddr user password timeout conn p)
    (hp : ∀ s, p ≠ loginRsp cli.typ s) :
    Client.Connect env cli servAddr user password timeout =
      (.panicked, cli.withConn (connAfterRecv env conn cli.typ user password)) ∧
    (Client.Connect env cli servAddr user password timeout).2.log =
      [.SetState .CONN_CONNECTED, .RecvSeqId (loginSeqId env),
       .SendPkt (.CmppConnReqPkt user password cli.typ) (loginSeqId env),
       .RecvAndUnpackPkt 0] := by
  have hc : connStatus cli.typ p = none := by
    unfold loginRsp at hp
    unfold connStatus
    by_cases ht : cli.typ = .V20 ∨ cli.typ = .V21
    · simp only [ht, if_true] at hp ⊢
      cases p with
      | Cmpp2ConnRspPkt q =>
        cases q with
        | none => rfl
        | some r => exact absurd rfl (hp r.Status)
      | _ => rfl
    · simp only [ht, if_false] at hp ⊢
      cases p with
      | Cmpp3ConnRspPkt q =>
        cases q with
        | none => rfl
        | some r => exact absurd rfl (hp r.Status)
      | _ => rfl
  rw [connect_of_replied env cli servAddr user password timeout conn p h, hc]
  simp [Client.withConn, Client.log, connAfterRecv, connAtRecv, Conn.call]

/-- Type mismatch at a concrete input: a `V20` session that receives a packet
of another type. -/
theorem connect_mismatch_panics_witness :
    (Client.Connect (sampleEnv none (.other 8, none)) (NewClient .V20)
      "127.0.0.1:7890" "900001" "secret" 2).1 = .panicked :=
  congrArg Prod.fst (connect_mismatch_panics (sampleEnv none (.other 8, none)) (NewClient .V20)
    "127.0.0.1:7890" "900001" "secret" 2 1 (.other 8) ⟨rfl, rfl, rfl⟩ (by intro s; simp [loginRsp, NewClient])).1

/-- Unmapped status: when the reply is the expected login response and the
status byte read from it is non-zero but absent from the table, `Connect`
returns nil, does not close the connection and does not set `CONN_AUTHOK`. -/
theorem connect_unmapped_status (env : Env) (cli : Client) (servAddr user password : String)
    (timeout : Int) (conn : Nat) (s : Nat)
    (hs0 : s ≠ 0) (hs : s < 256) (hmap : env.ConnRspStatusErrMap s = none)
    (h : Replied env cli.typ servAddr user password timeout conn (loginRsp cli.typ s)) :
    (Client.Connect env cli servAddr user password timeout).1 = .returned none ∧
    closeCount (Client.Connect env cli servAddr user password timeout).2.log = 0 ∧
    setStates (Client.Connect env cli servAddr user password timeout).2.log
      = [.CONN_CONNECTED] := by
  have hmod : s % 256 = s := Nat.mod_eq_of_lt hs
  rw [connect_of_replied env cli servAddr user password timeout conn _ h,
    connStatus_loginRsp]
  simp [hmod, hs0, hmap, Client.withConn, Client.log, connAfterRecv, connAtRecv, Conn.call,
    setStates, closeCount, ConnCall.setState?]

/-- Unmapped status at a concrete input: status 200 for a `V30` session. -/
theorem connect_unmapped_status_witness :
    (Client.Connect (sampleEnv none (.Cmpp3ConnRspPkt (some ⟨200⟩), none)) (NewClient V30)
      "127.0.0.1:7890" "900001" "secret" 2).1 = .returned none :=
  (connect_unmapped_status (sampleEnv none (.Cmpp3ConnRspPkt (some ⟨200⟩), none)) (NewClient V30)
    "127.0.0.1:7890" "900001" "secret" 2 1 200 (by decide) (by decide) rfl ⟨rfl, rfl, rfl⟩).1

/-- Wide status: for a session whose version is neither `V20` nor `V21`, a
newer-variant login response whose 32-bit status is a multiple of 256 is
accepted: `Connect` returns nil and sets `CONN_CONNECTED` then `CONN_AUTHOK`. -/
theorem connect_wide_status_low_byte (env : Env) (cli : Client)
    (servAddr user password : String) (timeout : Int) (conn : Nat) (s : Nat)
    (h20 : cli.typ ≠ .V20) (h21 : cli.typ ≠ .V21) (hs : s % 256 = 0)
    (h : Replied env cli.typ servAddr user password timeout conn
      (.Cmpp3ConnRspPkt (some ⟨s⟩))) :
    (Client.Connect env cli servAddr user password timeout).1 = .returned none ∧
    setStates (Client.Connect env cli servAddr user password timeout).2.log
      = [.CONN_CONNECTED, .CONN_AUTHOK] := by
  have hc : connStatus cli.typ (.Cmpp3ConnRspPkt (some ⟨s⟩)) = some (true, 0) := by
    simp [connStatus, h20, h21, assertCmpp3, hs]
  rw [connect_of_replied env cli servAddr user password timeout conn _ h, hc]
  simp [Client.withConn, Client.log, connAfterRecv, connAtRecv, Conn.call, Conn.SetState,
    setStates, ConnCall.setState?]

/-- Wide status at a concrete input: status 65536 for a `V30` session. -/
theorem connect_wide_status_low_byte_witness :
    (Client.Connect (sampleEnv none (.Cmpp3ConnRspPkt (some ⟨65536⟩), none)) (NewClient V30)
      "127.0.0.1:7890" "900001" "secret" 2).1 = .returned none :=
  (connect_wide_status_low_byte (sampleEnv none (.Cmpp3ConnRspPkt (some ⟨65536⟩), none))
    (NewClient V30) "127.0.0.1:7890" "900001" "secret" 2 1 65536 (by decide) (by decide)
    (by decide) ⟨rfl, rfl, rfl⟩).1

end Cmpp
